import Mathlib

/-!
Shallow embedding of the conversation-management core of the
`langchain-chatbot` repository (src/chatbot_aws.py, src/api.py,
src/deployment/lambda_handler.py).

External collaborators (AWS Bedrock inference, DynamoDB) are modelled as
explicit outcome parameters: each call site receives the outcome the
external service would produce (`Except String String` for an inference
call that either returns generated text or raises with a message; a
`Bool` for a store operation that either succeeds or raises).  Python
exceptions are modelled with `Except`; a `try/except` block becomes a
`match` on the fallible value.  Nondeterministic fresh values
(`uuid.uuid4()`, `datetime.utcnow()`) are supplied as string parameters.

Two ghost fields record externally observable call traces that the
specification talks about: `sent` records the arguments of every
`save_message_to_dynamodb` call (whether or not the store accepted it),
and `invocations` records the message list passed to every
`self.chat.invoke` call.
-/

/-- Roles of LangChain messages: `SystemMessage`, `HumanMessage`, `AIMessage`. -/
inductive Role where
  | system
  | user
  | assistant
deriving DecidableEq, Repr

/-- One LangChain message: a role together with its `content`. -/
structure Message where
  role : Role
  content : String
deriving DecidableEq, Repr

/-- The fixed system instruction installed by `AWSChatbot.__init__`
(src/chatbot_aws.py line 59). -/
def systemPrompt : String :=
  "You are a helpful AI assistant powered by AWS. Be concise and friendly."

/-- The value of `self.messages` right after `AWSChatbot.__init__`: a single leading
system turn (src/chatbot_aws.py lines 58-60). -/
def initMessages : List Message :=
  [⟨Role.system, systemPrompt⟩]

/-- The Python string literal the source passes for a role when saving
to DynamoDB ("user" / "assistant"), and how a stored role reads back. -/
def roleStr : Role → String
  | Role.system => "system"
  | Role.user => "user"
  | Role.assistant => "assistant"

/-- One DynamoDB item as built by `save_message_to_dynamodb`
(src/chatbot_aws.py lines 71-77). -/
structure DynamoItem where
  sessionId : String
  timestamp : String
  messageId : String
  role : String
  content : String
deriving DecidableEq, Repr

/-- The DynamoDB table, modelled as the list of stored items in
insertion order.  `table.query(SessionId = sid)` returns the items of
one session ordered by the `Timestamp` sort key; timestamps are taken
in call order, so insertion order is the query order. -/
abbrev DynamoDB := List DynamoItem

/-- In-memory state of one `AWSChatbot` instance (src/chatbot_aws.py
lines 22-64).  `token` is an allocation tag distinguishing distinct
Python object identities; `sent` and `invocations` are ghost traces of
outbound calls (see the file header). -/
structure AWSChatbot where
  aws_region : String
  model_id : String
  dynamodb_table : String
  session_id : String
  messages : List Message
  token : Nat
  sent : List (String × String)
  invocations : List (List Message)
deriving DecidableEq, Repr

/-- Default model id (env fallback in src/chatbot_aws.py line 35). -/
def defaultModelId : String := "us.amazon.nova-pro-v1:0"

/-- Default region (env fallback in src/chatbot_aws.py line 34). -/
def defaultRegion : String := "us-east-1"

/-- Default table name (env fallback in src/chatbot_aws.py line 36). -/
def defaultTable : String := "ChatbotConversations"

/-- The constructor `AWSChatbot(model_id=...)`, src/chatbot_aws.py lines
22-64.  `freshUuid` is the `uuid.uuid4()` drawn for `self.session_id`;
`token` tags the new object's identity. -/
def mkAWSChatbot (model_id : Option String) (freshUuid : String) (token : Nat) :
    AWSChatbot :=
  { aws_region := defaultRegion
    model_id := model_id.getD defaultModelId
    dynamodb_table := defaultTable
    session_id := freshUuid
    messages := initMessages
    token := token
    sent := []
    invocations := [] }

/-- The raw DynamoDB write `table.put_item(Item=item)`, which either
stores the item or raises (outcome supplied by `ok`). -/
def put_item (db : DynamoDB) (ok : Bool) (item : DynamoItem) :
    Except String DynamoDB :=
  if ok then Except.ok (db ++ [item]) else Except.error "ClientError"

/-- The method `AWSChatbot.save_message_to_dynamodb` (src/chatbot_aws.py
lines 66-84): builds the item, attempts `put_item`, and catches every
exception (`except ClientError` / `except Exception`), leaving the
store unchanged on failure.  Never raises. -/
def save_message_to_dynamodb (db : DynamoDB) (sid ts mid : String)
    (ok : Bool) (role content : String) : DynamoDB :=
  match put_item db ok ⟨sid, ts, mid, role, content⟩ with
  | Except.ok db' => db'
  | Except.error _ => db

/-- The raw DynamoDB query `table.query(SessionId = sid)`, which
either returns the session's items or raises. -/
def query_items (db : DynamoDB) (sid : String) (ok : Bool) :
    Except String (List DynamoItem) :=
  if ok then Except.ok (db.filter (fun it => it.sessionId = sid))
  else Except.error "query failed"

/-- The method `AWSChatbot.get_conversation_history` (src/chatbot_aws.py
lines 86-100): queries the table for `sid`, returning `[]` when the query
raises (the `except Exception` branch returns `[]`). -/
def get_conversation_history (db : DynamoDB) (sid : String) (ok : Bool) :
    List DynamoItem :=
  match query_items db sid ok with
  | Except.ok items => items
  | Except.error _ => []

/-- Outcomes of the external calls made during one `chat_response`
call: the inference result (generated text, or the exception message
`str(e)`), whether each of the two possible `put_item`s succeeds, and
the fresh timestamp/uuid strings drawn for each stored item. -/
structure StepEnv where
  inferResult : Except String String
  saveUserOk : Bool
  saveAssistantOk : Bool
  userTs : String
  userMid : String
  asstTs : String
  asstMid : String
deriving Repr

/-- The Bedrock inference call `self.chat.invoke(self.messages)`;
its outcome is supplied by the environment.  The argument list is what
the ghost trace `invocations` records. -/
def invoke_model (env : StepEnv) (_transcript : List Message) :
    Except String String :=
  env.inferResult

/-- The net effect of `AWSChatbot.chat_response` (src/chatbot_aws.py
lines 102-129) as a pure step: returns the reply text, the updated
chatbot state, and the updated store.  Order of effects follows the
source: append user turn, save user turn (best-effort), invoke the
model on the full transcript, and on success append and save the
assistant turn; on inference failure return the synthesized
`"Error getting response: " + str(e)` string. -/
def chatStep (bot : AWSChatbot) (db : DynamoDB) (env : StepEnv)
    (user_input : String) : String × AWSChatbot × DynamoDB :=
  let bot1 : AWSChatbot :=
    { bot with
        messages := bot.messages ++ [⟨Role.user, user_input⟩]
        sent := bot.sent ++ [("user", user_input)] }
  let db1 := save_message_to_dynamodb db bot.session_id env.userTs env.userMid
      env.saveUserOk "user" user_input
  let bot2 : AWSChatbot :=
    { bot1 with invocations := bot1.invocations ++ [bot1.messages] }
  match invoke_model env bot1.messages with
  | Except.ok assistant_message =>
      let bot3 : AWSChatbot :=
        { bot2 with
            messages := bot2.messages ++ [⟨Role.assistant, assistant_message⟩]
            sent := bot2.sent ++ [("assistant", assistant_message)] }
      let db2 := save_message_to_dynamodb db1 bot.session_id env.asstTs
          env.asstMid env.saveAssistantOk "assistant" assistant_message
      (assistant_message, bot3, db2)
  | Except.error e =>
      ("Error getting response: " ++ e, bot2, db1)

/-- The method `AWSChatbot.chat_response` with Python's exception semantics made
explicit: every fallible statement is matched, mirroring the source's
`try/except` (src/chatbot_aws.py lines 116-129); a value the function
would `raise` to its caller would appear as `Except.error`.  Appending
to `self.messages` cannot raise; `save_message_to_dynamodb` catches
internally; the `try` around `invoke` converts an inference exception
into a returned string. -/
def chat_response (bot : AWSChatbot) (db : DynamoDB) (env : StepEnv)
    (user_input : String) :
    Except String (String × AWSChatbot × DynamoDB) :=
  let bot1 : AWSChatbot :=
    { bot with
        messages := bot.messages ++ [⟨Role.user, user_input⟩]
        sent := bot.sent ++ [("user", user_input)] }
  let db1 := save_message_to_dynamodb db bot.session_id env.userTs env.userMid
      env.saveUserOk "user" user_input
  let bot2 : AWSChatbot :=
    { bot1 with invocations := bot1.invocations ++ [bot1.messages] }
  match invoke_model env bot1.messages with
  | Except.ok assistant_message =>
      let bot3 : AWSChatbot :=
        { bot2 with
            messages := bot2.messages ++ [⟨Role.assistant, assistant_message⟩]
            sent := bot2.sent ++ [("assistant", assistant_message)] }
      let db2 := save_message_to_dynamodb db1 bot.session_id env.asstTs
          env.asstMid env.saveAssistantOk "assistant" assistant_message
      Except.ok (assistant_message, bot3, db2)
  | Except.error e =>
      Except.ok ("Error getting response: " ++ e, bot2, db1)

/-- The record returned by `AWSChatbot.get_session_summary`
(src/chatbot_aws.py lines 131-142): a pure read counting `HumanMessage`s and `AIMessage`s in the
in-memory transcript. -/
structure SessionSummary where
  session_id : String
  region : String
  model : String
  user_messages : Nat
  ai_messages : Nat
deriving DecidableEq, Repr

/-- The method `AWSChatbot.get_session_summary` (src/chatbot_aws.py
lines 131-142). -/
def get_session_summary (bot : AWSChatbot) : SessionSummary :=
  { session_id := bot.session_id
    region := bot.aws_region
    model := bot.model_id
    user_messages := (bot.messages.filter (fun m => m.role = Role.user)).length
    ai_messages :=
      (bot.messages.filter (fun m => m.role = Role.assistant)).length }

/-- One scripted `chat_response` call: the external outcomes for the
call together with the user input. -/
abbrev Call := StepEnv × String

/-- Run a sequence of `chat_response` calls against one chatbot and
one store, threading the state (returned reply texts dropped). -/
def runCalls (bot : AWSChatbot) (db : DynamoDB) : List Call → AWSChatbot × DynamoDB
  | [] => (bot, db)
  | (env, input) :: rest =>
      let r := chatStep bot db env input
      runCalls r.2.1 r.2.2 rest

/-- The turns one call appends to the transcript: a user turn, plus an
assistant turn exactly when inference succeeded. -/
def callTurns (c : Call) : List Message :=
  match c.1.inferResult with
  | Except.ok r => [⟨Role.user, c.2⟩, ⟨Role.assistant, r⟩]
  | Except.error _ => [⟨Role.user, c.2⟩]

/-- Concatenated turns of a call sequence, in call order. -/
def callTurnsAll : List Call → List Message
  | [] => []
  | c :: rest => callTurns c ++ callTurnsAll rest

/-- The transcript each inference invocation receives, per call, when
the transcript before the calls is `ms`: the call invokes the model on
the transcript so far extended with the call's user turn (the source
invokes `self.chat.invoke(self.messages)` right after appending the
user message), and the transcript then grows by the call's turns. -/
def invocationsOf (ms : List Message) : List Call → List (List Message)
  | [] => []
  | (env, input) :: rest =>
      (ms ++ [⟨Role.user, input⟩]) ::
        invocationsOf (ms ++ callTurns (env, input)) rest

/-- Whether a call's inference outcome is a success. -/
def callOk (c : Call) : Bool :=
  match c.1.inferResult with
  | Except.ok _ => true
  | Except.error _ => false

/-!
The session registry.  `src/api.py` keeps `chatbot_sessions : Dict[str,
AWSChatbot]`; `src/deployment/lambda_handler.py` keeps
`chatbot_instances`.  Both are modelled as an association list plus an
allocation counter for object identity; in the source, registration
only ever happens for a key that is absent, so appending models the
dict assignment. -/

/-- Process-wide registry state: the id-to-chatbot mapping plus the
next free identity token. -/
structure RegistryState where
  sessions : List (String × AWSChatbot)
  nextToken : Nat
deriving DecidableEq, Repr

/-- The lookups `sid in dict` / `dict[sid]` on the registry. -/
def lookupSession (st : RegistryState) (sid : String) : Option AWSChatbot :=
  (st.sessions.find? (fun p => p.1 = sid)).map (fun p => p.2)

/-- The assignment `dict[sid] = bot`: in-place mutation of an already-registered
chatbot object seen through the registry's alias (the source mutates
the object; every registry entry holding it sees the new state). -/
def updateSession (st : RegistryState) (sid : String) (bot : AWSChatbot) :
    RegistryState :=
  { st with
      sessions := st.sessions.map (fun p => if p.1 = sid then (p.1, bot) else p) }

/-- The get-or-create block of the `/chat` endpoint (src/api.py lines
126-140): `session_id = request.session_id or str(uuid.uuid4())`; an
already-registered id returns the registered instance unchanged;
otherwise a new `AWSChatbot` is built (with the requested model id if
any), its `session_id` is overwritten with `session_id`, and it is
registered under that id.  `freshUuid` is the uuid drawn at line 128;
`ctorUuid` the one the constructor draws internally. -/
def apiGetOrCreate (st : RegistryState) (req_session_id req_model_id : Option String)
    (freshUuid ctorUuid : String) : AWSChatbot × RegistryState :=
  let session_id := req_session_id.getD freshUuid
  match lookupSession st session_id with
  | some chatbot => (chatbot, st)
  | none =>
      let chatbot0 := mkAWSChatbot req_model_id ctorUuid st.nextToken
      let chatbot := { chatbot0 with session_id := session_id }
      (chatbot,
        { sessions := st.sessions ++ [(session_id, chatbot)]
          nextToken := st.nextToken + 1 })

/-- The get-or-create block of `lambda_handler` (lines 55-62 of
src/deployment/lambda_handler.py): `if session_id and session_id in
chatbot_instances` reuses the registered instance; otherwise a new
`AWSChatbot` is constructed, and only `if session_id:` is it renamed to
`session_id` and registered — with no `session_id` supplied, the new
instance keeps its generated uuid and is NOT registered.  (Python's
falsy `""` session id behaves like an absent one and is modelled by
`none`.)  `ctorOk` is whether the `AWSChatbot()` constructor raises;
a raise propagates to the handler's outer `except`. -/
def lambdaGetOrCreate (st : RegistryState) (session_id model_id : Option String)
    (ctorUuid : String) (ctorOk : Bool) :
    Except String (AWSChatbot × RegistryState) :=
  match session_id with
  | some sid =>
      match lookupSession st sid with
      | some chatbot => Except.ok (chatbot, st)
      | none =>
          if ctorOk then
            let chatbot0 := mkAWSChatbot model_id ctorUuid st.nextToken
            let chatbot := { chatbot0 with session_id := sid }
            Except.ok (chatbot,
              { sessions := st.sessions ++ [(sid, chatbot)]
                nextToken := st.nextToken + 1 })
          else Except.error "could not construct AWSChatbot"
  | none =>
      if ctorOk then
        Except.ok (mkAWSChatbot model_id ctorUuid st.nextToken,
          { st with nextToken := st.nextToken + 1 })
      else Except.error "could not construct AWSChatbot"

/-- The endpoint deleting a session (src/api.py lines 221-235): if the
id is registered, delete it from the in-memory dict and answer with a
success message; otherwise answer 404 (`Except.error`).  The durable
store is passed through untouched: the endpoint never references
DynamoDB. -/
def delete_session (st : RegistryState) (db : DynamoDB) (sid : String) :
    Except String String × RegistryState × DynamoDB :=
  match lookupSession st sid with
  | some _ =>
      (Except.ok ("Session " ++ sid ++ " deleted"),
        { st with sessions := st.sessions.filter (fun p => ¬ p.1 = sid) },
        db)
  | none =>
      (Except.error ("Session " ++ sid ++ " not found"), st, db)

/-!
The Lambda entry point (src/deployment/lambda_handler.py lines 27-93).
The body-parsing prelude (lines 29-36) is summarised by its outcome: a
parsed body record, or the `json.loads` exception.  Absent fields read
as `none`; a `""` message is falsy at `if not message:` and is kept as
`some ""` so the falsiness check is explicit in the handler itself. -/

/-- The fields `lambda_handler` reads out of the request body. -/
structure LambdaBody where
  message : Option String
  session_id : Option String
  model_id : Option String
deriving DecidableEq, Repr

/-- The JSON bodies `lambda_handler` can answer with. -/
inductive LambdaRespBody where
  /-- the 400 body: `{'error': 'Message is required', 'usage': {...}}` -/
  | missingMessage
  /-- the 200 body: response text, session id, model, region -/
  | chat (response session_id model region : String)
  /-- the 500 body: `{'error': str(e)}` -/
  | err (msg : String)
deriving DecidableEq, Repr

/-- An HTTP-shaped Lambda response: status code and body. -/
structure LambdaResponse where
  statusCode : Nat
  body : LambdaRespBody
deriving DecidableEq, Repr

/-- The function `lambda_handler` (src/deployment/lambda_handler.py lines 27-93).
`body` is the outcome of parsing the event body; `ctorOk` and `env`
are the outcomes of the external calls the handler may make; `ctorUuid`
is the uuid a fresh constructor would draw.  The outer `try/except`
turns any raised exception into a 500 response, so the result is a
response in every case. -/
def lambda_handler (st : RegistryState) (db : DynamoDB)
    (body : Except String LambdaBody) (ctorOk : Bool) (env : StepEnv)
    (ctorUuid : String) : LambdaResponse × RegistryState × DynamoDB :=
  match body with
  | Except.error e => (⟨500, LambdaRespBody.err e⟩, st, db)
  | Except.ok b =>
      match b.message with
      | none => (⟨400, LambdaRespBody.missingMessage⟩, st, db)
      | some msg =>
          if msg = "" then (⟨400, LambdaRespBody.missingMessage⟩, st, db)
          else
            match lambdaGetOrCreate st b.session_id b.model_id ctorUuid ctorOk with
            | Except.error e => (⟨500, LambdaRespBody.err e⟩, st, db)
            | Except.ok (chatbot, st1) =>
                let r := chatStep chatbot db env msg
                let st2 := updateSession st1 r.2.1.session_id r.2.1
                (⟨200, LambdaRespBody.chat r.1 r.2.1.session_id r.2.1.model_id
                    r.2.1.aws_region⟩,
                  st2, r.2.2)

/-- The invariant tying the in-memory transcript to the outbound call
traces: the transcript starts with the fixed system turn, the store
has been sent exactly the transcript minus that leading system turn,
and every inference invocation so far was a transcript prefix starting
with the system turn. -/
def botMirror (bot : AWSChatbot) : Prop :=
  bot.messages.head? = some ⟨Role.system, systemPrompt⟩ ∧
  bot.sent = (bot.messages.drop 1).map (fun m => (roleStr m.role, m.content)) ∧
  ∀ inv ∈ bot.invocations,
    inv.head? = some ⟨Role.system, systemPrompt⟩ ∧ inv <+: bot.messages

/-- A concrete environment whose inference succeeds (witness data). -/
def envOkW : StepEnv :=
  ⟨Except.ok "yo", true, true, "t1", "m1", "t2", "m2"⟩

/-- A concrete environment whose inference fails (witness data). -/
def envFailW : StepEnv :=
  ⟨Except.error "boom", true, true, "t1", "m1", "t2", "m2"⟩

/-- A concrete registry holding one session (witness data). -/
def stW : RegistryState :=
  ⟨[("S1", mkAWSChatbot none "S1" 0)], 1⟩

/-- A concrete store holding turns of two sessions (witness data). -/
def dbW : DynamoDB :=
  [⟨"A", "t1", "m1", "user", "hi"⟩, ⟨"B", "t2", "m2", "user", "yo"⟩]

/-- A request body with no message field (witness data). -/
def bodyNoMsg : LambdaBody := ⟨none, none, none⟩

/-- A request body whose message is the empty string (witness data). -/
def bodyEmptyMsg : LambdaBody := ⟨some "", none, none⟩

/-- A request body with a nonempty message (witness data). -/
def bodyMsg : LambdaBody := ⟨some "hi", none, none⟩

/-!  Helper lemmas shared by the claim theorems. -/

/-- One `chat_response` call appends exactly `callTurns` to the
transcript: the user turn, plus the assistant turn on success. -/
theorem chatStep_messages (bot : AWSChatbot) (db : DynamoDB) (env : StepEnv)
    (input : String) :
    (chatStep bot db env input).2.1.messages =
      bot.messages ++ callTurns (env, input) := by
  cases h : env.inferResult with
  | ok r => simp [chatStep, invoke_model, callTurns, h]
  | error e => simp [chatStep, invoke_model, callTurns, h]

/-- The `chat_response` translation with explicit exception semantics
always returns normally, with the value computed by `chatStep`. -/
theorem chat_response_ok (bot : AWSChatbot) (db : DynamoDB) (env : StepEnv)
    (input : String) :
    chat_response bot db env input = Except.ok (chatStep bot db env input) := by
  cases h : env.inferResult with
  | ok r => simp [chat_response, chatStep, invoke_model, h]
  | error e => simp [chat_response, chatStep, invoke_model, h]

/-- Transcript after a run of calls: the starting transcript followed
by each call's turns, in call order. -/
theorem runCalls_messages (calls : List Call) :
    ∀ bot db, (runCalls bot db calls).1.messages =
      bot.messages ++ callTurnsAll calls := by
  induction calls with
  | nil => intro bot db; simp [runCalls, callTurnsAll]
  | cons c rest ih =>
      intro bot db
      obtain ⟨env, input⟩ := c
      simp only [runCalls, callTurnsAll]
      rw [ih, chatStep_messages, List.append_assoc]

/-- Each call contributes exactly one user turn. -/
theorem callTurnsAll_count_user (calls : List Call) :
    ((callTurnsAll calls).filter (fun m => m.role = Role.user)).length =
      calls.length := by
  induction calls with
  | nil => simp [callTurnsAll]
  | cons c rest ih =>
      obtain ⟨env, input⟩ := c
      cases h : env.inferResult with
      | ok r => simp [callTurnsAll, callTurns, h, List.filter_append, ih]
      | error e => simp [callTurnsAll, callTurns, h, List.filter_append, ih]

/-- Each call contributes an assistant turn exactly when it succeeds. -/
theorem callTurnsAll_count_assistant (calls : List Call) :
    ((callTurnsAll calls).filter (fun m => m.role = Role.assistant)).length =
      (calls.filter callOk).length := by
  induction calls with
  | nil => simp [callTurnsAll]
  | cons c rest ih =>
      obtain ⟨env, input⟩ := c
      cases h : env.inferResult with
      | ok r =>
          simp [callTurnsAll, callTurns, callOk, h, List.filter_append, ih]
      | error e =>
          simp [callTurnsAll, callTurns, callOk, h, List.filter_append, ih]

/-- C1: For every sequence of `chat_response` calls on one session, the
in-memory transcript's turn order equals call order; every successful
call appends exactly one user turn followed by one assistant turn, and
every call whose inference fails appends exactly one user turn and no
assistant turn (`callTurns` is precisely that block of turns). -/
theorem C1_transcript_order (bot : AWSChatbot) (db : DynamoDB)
    (calls : List Call) :
    (runCalls bot db calls).1.messages = bot.messages ++ callTurnsAll calls :=
  runCalls_messages calls bot db

/-- C2: When inference fails with message `e`, `chat_response` returns
the synthesized string `"Error getting response: " ++ e` normally (no
exception escapes), appends only the user turn to the transcript, sends
only the user turn to the durable store, and leaves the store with at
most the user-turn write. -/
theorem C2_inference_failure (bot : AWSChatbot) (db : DynamoDB)
    (env : StepEnv) (input e : String)
    (h : env.inferResult = Except.error e) :
    (chatStep bot db env input).1 = "Error getting response: " ++ e ∧
    chat_response bot db env input = Except.ok (chatStep bot db env input) ∧
    (chatStep bot db env input).2.1.messages =
      bot.messages ++ [⟨Role.user, input⟩] ∧
    (chatStep bot db env input).2.1.sent = bot.sent ++ [("user", input)] ∧
    (chatStep bot db env input).2.2 =
      save_message_to_dynamodb db bot.session_id env.userTs env.userMid
        env.saveUserOk "user" input := by
  refine ⟨?_, chat_response_ok bot db env input, ?_, ?_, ?_⟩ <;>
    simp [chatStep, invoke_model, h]

/-- C2 witness: the failing-inference theorem applied at a concrete
session, store, and environment. -/
theorem C2_inference_failure_witness :
    envFailW.inferResult = Except.error "boom" ∧
    ((chatStep (mkAWSChatbot none "S" 0) [] envFailW "hi").1 =
        "Error getting response: " ++ "boom" ∧
      chat_response (mkAWSChatbot none "S" 0) [] envFailW "hi" =
        Except.ok (chatStep (mkAWSChatbot none "S" 0) [] envFailW "hi") ∧
      (chatStep (mkAWSChatbot none "S" 0) [] envFailW "hi").2.1.messages =
        (mkAWSChatbot none "S" 0).messages ++ [⟨Role.user, "hi"⟩] ∧
      (chatStep (mkAWSChatbot none "S" 0) [] envFailW "hi").2.1.sent =
        (mkAWSChatbot none "S" 0).sent ++ [("user", "hi")] ∧
      (chatStep (mkAWSChatbot none "S" 0) [] envFailW "hi").2.2 =
        save_message_to_dynamodb [] (mkAWSChatbot none "S" 0).session_id
          envFailW.userTs envFailW.userMid envFailW.saveUserOk "user" "hi") :=
  ⟨rfl, C2_inference_failure (mkAWSChatbot none "S" 0) [] envFailW "hi" "boom" rfl⟩

/-- C3: A failure of the durable-store write is swallowed: whatever the
two `put_item` outcomes are, the reply text and the entire resulting
in-memory chatbot state (transcript included) are unchanged, and the
call still returns normally. -/
theorem C3_persistence_best_effort (bot : AWSChatbot) (db : DynamoDB)
    (env : StepEnv) (input : String) (b1 b2 : Bool) :
    (chatStep bot db { env with saveUserOk := b1, saveAssistantOk := b2 }
        input).1 = (chatStep bot db env input).1 ∧
    (chatStep bot db { env with saveUserOk := b1, saveAssistantOk := b2 }
        input).2.1 = (chatStep bot db env input).2.1 ∧
    chat_response bot db { env with saveUserOk := b1, saveAssistantOk := b2 }
        input =
      Except.ok (chatStep bot db
        { env with saveUserOk := b1, saveAssistantOk := b2 } input) := by
  refine ⟨?_, ?_, chat_response_ok bot db _ input⟩ <;>
    cases h : env.inferResult <;> simp [chatStep, invoke_model, h]

/-- C9: `chat_response` is total over its input: for every string
(empty and whitespace-only included) and every collaborator outcome, it
returns a value rather than raising — the explicit-exception
translation always yields `Except.ok`, with the value of `chatStep`. -/
theorem C9_chat_response_never_raises (bot : AWSChatbot) (db : DynamoDB)
    (env : StepEnv) (input : String) :
    chat_response bot db env input = Except.ok (chatStep bot db env input) :=
  chat_response_ok bot db env input

/-- C6: After any run of calls on a fresh session, the summary's
`user_messages` equals the number of calls issued and `ai_messages`
equals the number of successful calls; `get_session_summary` is a pure
read (a function of the chatbot state only, returning a record and
leaving the state untouched). -/
theorem C6_summary_counts (model : Option String) (u : String) (t : Nat)
    (db : DynamoDB) (calls : List Call) :
    (get_session_summary (runCalls (mkAWSChatbot model u t) db calls).1
        ).user_messages = calls.length ∧
    (get_session_summary (runCalls (mkAWSChatbot model u t) db calls).1
        ).ai_messages = (calls.filter callOk).length := by
  constructor <;>
    simp [get_session_summary, runCalls_messages, mkAWSChatbot, initMessages,
      List.filter_append, callTurnsAll_count_user,
      callTurnsAll_count_assistant]

/-- A fresh chatbot satisfies the transcript/trace invariant. -/
theorem mkAWSChatbot_mirror (model : Option String) (u : String) (t : Nat) :
    botMirror (mkAWSChatbot model u t) := by
  refine ⟨rfl, rfl, ?_⟩
  intro inv hmem
  simp [mkAWSChatbot] at hmem

/-- One `chat_response` call preserves the transcript/trace invariant. -/
theorem chatStep_mirror (bot : AWSChatbot) (db : DynamoDB) (env : StepEnv)
    (input : String) (h : botMirror bot) :
    botMirror (chatStep bot db env input).2.1 := by
  obtain ⟨hh, hs, hi⟩ := h
  cases hm : bot.messages with
  | nil => rw [hm] at hh; simp at hh
  | cons a t =>
      rw [hm] at hh hs
      simp only [List.head?_cons, Option.some.injEq] at hh
      simp only [List.drop_succ_cons, List.drop_zero] at hs
      cases hinf : env.inferResult with
      | ok r =>
          refine ⟨?_, ?_, ?_⟩
          · simp [chatStep, invoke_model, hinf, hm, hh]
          · simp [chatStep, invoke_model, hinf, hm, hs, roleStr]
          · intro inv hmem
            simp only [chatStep, invoke_model, hinf] at hmem ⊢
            rcases List.mem_append.mp hmem with h1 | h2
            · exact ⟨(hi inv h1).1,
                (hi inv h1).2.trans
                  ((List.prefix_append _ _).trans (List.prefix_append _ _))⟩
            · rw [List.mem_singleton.mp h2]
              constructor
              · rw [hm]; simp [hh]
              · exact List.prefix_append _ _
      | error e =>
          refine ⟨?_, ?_, ?_⟩
          · simp [chatStep, invoke_model, hinf, hm, hh]
          · simp [chatStep, invoke_model, hinf, hm, hs, roleStr]
          · intro inv hmem
            simp only [chatStep, invoke_model, hinf] at hmem ⊢
            rcases List.mem_append.mp hmem with h1 | h2
            · exact ⟨(hi inv h1).1, (hi inv h1).2.trans (List.prefix_append _ _)⟩
            · rw [List.mem_singleton.mp h2]
              constructor
              · rw [hm]; simp [hh]
              · exact List.prefix_refl _

/-- The invariant holds after any run from a fresh chatbot. -/
theorem runCalls_mirror (calls : List Call) :
    ∀ bot db, botMirror bot → botMirror (runCalls bot db calls).1 := by
  induction calls with
  | nil => intro bot db h; simpa [runCalls] using h
  | cons c rest ih =>
      intro bot db h
      obtain ⟨env, input⟩ := c
      simp only [runCalls]
      exact ih _ _ (chatStep_mirror bot db env input h)

/-- One `chat_response` call records exactly one inference invocation:
the transcript before the call extended with the call's user turn. -/
theorem chatStep_invocations (bot : AWSChatbot) (db : DynamoDB)
    (env : StepEnv) (input : String) :
    (chatStep bot db env input).2.1.invocations =
      bot.invocations ++ [bot.messages ++ [⟨Role.user, input⟩]] := by
  cases h : env.inferResult with
  | ok r => simp [chatStep, invoke_model, h]
  | error e => simp [chatStep, invoke_model, h]

/-- The invocation trace of a run: for the k-th call, exactly the
transcript as of that call (the transcript produced by the previous
calls, extended with the k-th user turn). -/
theorem runCalls_invocations (calls : List Call) :
    ∀ bot db, (runCalls bot db calls).1.invocations =
      bot.invocations ++ invocationsOf bot.messages calls := by
  induction calls with
  | nil => intro bot db; simp [runCalls, invocationsOf]
  | cons c rest ih =>
      intro bot db
      obtain ⟨env, input⟩ := c
      simp only [runCalls, invocationsOf]
      rw [ih, chatStep_invocations, chatStep_messages, List.append_assoc]
      simp

/-- C5: After any run on a fresh session, the sequence of turns sent to
the durable store equals the in-memory transcript minus its leading
system turn (the system instruction is never persisted), and the
inference-invocation trace equals, call by call, the full ordered
transcript as of that call — the transcript produced by the preceding
calls (starting from the single system turn) extended with the call's
user turn — so every invocation receives the full transcript,
including the leading system instruction turn. -/
theorem C5_store_mirrors_transcript (model : Option String) (u : String)
    (t : Nat) (db : DynamoDB) (calls : List Call) :
    (runCalls (mkAWSChatbot model u t) db calls).1.sent =
      (((runCalls (mkAWSChatbot model u t) db calls).1.messages.drop 1).map
        (fun m => (roleStr m.role, m.content))) ∧
    (runCalls (mkAWSChatbot model u t) db calls).1.invocations =
      invocationsOf initMessages calls ∧
    ∀ inv ∈ (runCalls (mkAWSChatbot model u t) db calls).1.invocations,
      inv.head? = some ⟨Role.system, systemPrompt⟩ := by
  have h := runCalls_mirror calls (mkAWSChatbot model u t) db
    (mkAWSChatbot_mirror model u t)
  refine ⟨h.2.1, ?_, fun inv hm => (h.2.2 inv hm).1⟩
  have h2 := runCalls_invocations calls (mkAWSChatbot model u t) db
  simpa [mkAWSChatbot] using h2

/-- C5 witness: a concrete two-call run (a success then a failure);
its invocation trace is exactly the two full transcripts as of each
call, each starting with the system turn. -/
theorem C5_store_mirrors_transcript_witness :
    (runCalls (mkAWSChatbot none "S" 0) []
        [(envOkW, "hi"), (envFailW, "again")]).1.invocations =
      invocationsOf initMessages [(envOkW, "hi"), (envFailW, "again")] ∧
    invocationsOf initMessages [(envOkW, "hi"), (envFailW, "again")] =
      [[⟨Role.system, systemPrompt⟩, ⟨Role.user, "hi"⟩],
       [⟨Role.system, systemPrompt⟩, ⟨Role.user, "hi"⟩,
        ⟨Role.assistant, "yo"⟩, ⟨Role.user, "again"⟩]] ∧
    [⟨Role.system, systemPrompt⟩, ⟨Role.user, "hi"⟩] ∈
      (runCalls (mkAWSChatbot none "S" 0) []
        [(envOkW, "hi"), (envFailW, "again")]).1.invocations ∧
    ([⟨Role.system, systemPrompt⟩, ⟨Role.user, "hi"⟩] : List Message).head? =
      some ⟨Role.system, systemPrompt⟩ :=
  ⟨(C5_store_mirrors_transcript none "S" 0 []
      [(envOkW, "hi"), (envFailW, "again")]).2.1,
    by decide,
    by decide,
    (C5_store_mirrors_transcript none "S" 0 []
      [(envOkW, "hi"), (envFailW, "again")]).2.2 _ (by decide)⟩

/-- A `find?` over an append skips a head list in which nothing matches. -/
theorem find?_append_of_none {α : Type} (l1 l2 : List α) (p : α → Bool)
    (h : l1.find? p = none) : (l1 ++ l2).find? p = l2.find? p := by
  induction l1 with
  | nil => simp
  | cons a t ih =>
      cases hpa : p a with
      | true => simp [List.find?_cons, hpa] at h
      | false =>
          simp only [List.find?_cons, hpa] at h
          simpa [List.find?_cons, hpa] using ih h

/-- Registering a chatbot under an id absent from the registry makes a
lookup of that id return it. -/
theorem lookupSession_append (st : RegistryState) (sid : String)
    (bot : AWSChatbot) (n : Nat) (h : lookupSession st sid = none) :
    lookupSession ⟨st.sessions ++ [(sid, bot)], n⟩ sid = some bot := by
  unfold lookupSession at h ⊢
  cases hf : st.sessions.find? (fun p => p.1 = sid) with
  | some v => rw [hf] at h; simp at h
  | none =>
      rw [find?_append_of_none _ _ _ hf]
      simp [List.find?_cons]

/-- After `del dict[sid]`, a lookup of `sid` finds nothing. -/
theorem lookupSession_filter_self (st : RegistryState) (sid : String) :
    lookupSession
      { st with sessions := st.sessions.filter (fun p => ¬ p.1 = sid) }
      sid = none := by
  unfold lookupSession
  rw [List.find?_eq_none.mpr]
  · rfl
  · intro p hp
    have := (List.mem_filter.mp hp).2
    simpa using this

/-- C4 counterexample: in the Lambda handler's get-or-create, a call
with the session id omitted constructs a session carrying the generated
id "S1" but does NOT register it (the registry stays empty, so looking
up "S1" finds nothing), and a subsequent call presenting "S1" builds a
distinct instance (a different allocation token) instead of returning
the first one — refuting the claim that an omitted id is registered
under the generated id. -/
theorem C4_counterexample :
    lambdaGetOrCreate (RegistryState.mk [] 0) none none "S1" true =
      Except.ok (mkAWSChatbot none "S1" 0, RegistryState.mk [] 1) ∧
    (mkAWSChatbot none "S1" 0).session_id = "S1" ∧
    lookupSession (RegistryState.mk [] 1) "S1" = none ∧
    lambdaGetOrCreate (RegistryState.mk [] 1) (some "S1") none "S2" true =
      Except.ok ({ mkAWSChatbot none "S2" 1 with session_id := "S1" },
        RegistryState.mk
          [("S1", { mkAWSChatbot none "S2" 1 with session_id := "S1" })] 2) ∧
    ({ mkAWSChatbot none "S2" 1 with session_id := "S1" } : AWSChatbot).token ≠
      (mkAWSChatbot none "S1" 0).token := by
  refine ⟨rfl, rfl, rfl, rfl, by decide⟩

/-- C4 (amended): getOrCreate is identity-preserving for registered
ids in both adapters, even under a different modelId; a FastAPI create
always registers the new session under the (possibly generated) id; a
Lambda create registers only when an explicit session id was supplied —
with the id omitted, the new session keeps its generated id and is not
registered (the registry is unchanged apart from the allocation
counter). -/
theorem C4_get_or_create (st : RegistryState) (sid : String)
    (bot : AWSChatbot) (mid1 mid2 : Option String) (u1 u2 u3 : String)
    (h : lookupSession st sid = some bot) :
    apiGetOrCreate st (some sid) mid1 u1 u2 = (bot, st) ∧
    lambdaGetOrCreate st (some sid) mid2 u3 true = Except.ok (bot, st) ∧
    (∀ st' req mid u c, lookupSession st' (req.getD u) = none →
      lookupSession (apiGetOrCreate st' req mid u c).2
          ((apiGetOrCreate st' req mid u c).1.session_id) =
        some (apiGetOrCreate st' req mid u c).1 ∧
      (apiGetOrCreate st' req mid u c).1.session_id = req.getD u) ∧
    (∀ st' sid' mid u, lookupSession st' sid' = none →
      ∃ b st2,
        lambdaGetOrCreate st' (some sid') mid u true = Except.ok (b, st2) ∧
        lookupSession st2 sid' = some b ∧ b.session_id = sid') ∧
    (∀ st' mid u, lambdaGetOrCreate st' none mid u true =
      Except.ok (mkAWSChatbot mid u st'.nextToken,
        { st' with nextToken := st'.nextToken + 1 })) := by
  refine ⟨?_, ?_, ?_, ?_, ?_⟩
  · simp [apiGetOrCreate, h]
  · simp [lambdaGetOrCreate, h]
  · intro st' req mid u c h'
    constructor
    · simp only [apiGetOrCreate, h']
      exact lookupSession_append st' (req.getD u) _ _ h'
    · simp [apiGetOrCreate, h']
  · intro st' sid' mid u h'
    refine ⟨{ mkAWSChatbot mid u st'.nextToken with session_id := sid' },
      ⟨st'.sessions ++
        [(sid', { mkAWSChatbot mid u st'.nextToken with session_id := sid' })],
        st'.nextToken + 1⟩, ?_, ?_, rfl⟩
    · simp [lambdaGetOrCreate, h']
    · exact lookupSession_append st' sid' _ _ h'
  · intro st' mid u
    simp [lambdaGetOrCreate]

/-- C4 witness: the amended theorem applied at a concrete registry
holding one session; the registered id is returned as-is under a
different model id, and a create for fresh id "S2" registers it. -/
theorem C4_get_or_create_witness :
    lookupSession stW "S1" = some (mkAWSChatbot none "S1" 0) ∧
    apiGetOrCreate stW (some "S1") (some "m2") "u1" "u2" =
      (mkAWSChatbot none "S1" 0, stW) ∧
    lambdaGetOrCreate stW (some "S1") (some "m3") "u3" true =
      Except.ok (mkAWSChatbot none "S1" 0, stW) ∧
    lookupSession stW "S2" = none ∧
    lookupSession (apiGetOrCreate stW (some "S2") none "u4" "u5").2
        ((apiGetOrCreate stW (some "S2") none "u4" "u5").1.session_id) =
      some (apiGetOrCreate stW (some "S2") none "u4" "u5").1 ∧
    (apiGetOrCreate stW (some "S2") none "u4" "u5").1.session_id = "S2" :=
  ⟨by decide,
    (C4_get_or_create stW "S1" (mkAWSChatbot none "S1" 0) (some "m2")
      (some "m3") "u1" "u2" "u3" (by decide)).1,
    (C4_get_or_create stW "S1" (mkAWSChatbot none "S1" 0) (some "m2")
      (some "m3") "u1" "u2" "u3" (by decide)).2.1,
    by decide,
    ((C4_get_or_create stW "S1" (mkAWSChatbot none "S1" 0) (some "m2")
      (some "m3") "u1" "u2" "u3" (by decide)).2.2.1 stW (some "S2") none
      "u4" "u5" (by decide)).1,
    ((C4_get_or_create stW "S1" (mkAWSChatbot none "S1" 0) (some "m2")
      (some "m3") "u1" "u2" "u3" (by decide)).2.2.1 stW (some "S2") none
      "u4" "u5" (by decide)).2⟩

/-- C7: removing a session only unregisters it: the durable store is
untouched (same store, same history for the id), the endpoint reports
whether the session was actually present (success message vs 404), a
lookup of the id afterwards finds nothing, and a session recreated
under the same id starts with a fresh transcript whose summary counts
are zero — regardless of the (possibly nonempty) durable history. -/
theorem C7_remove_frame (st : RegistryState) (db : DynamoDB) (sid : String)
    (mid : Option String) (u c : String) (ok : Bool) :
    (delete_session st db sid).2.2 = db ∧
    get_conversation_history (delete_session st db sid).2.2 sid ok =
      get_conversation_history db sid ok ∧
    ((delete_session st db sid).1 =
        Except.ok ("Session " ++ sid ++ " deleted") ↔
      ∃ b, lookupSession st sid = some b) ∧
    lookupSession (delete_session st db sid).2.1 sid = none ∧
    (get_session_summary
        (apiGetOrCreate (delete_session st db sid).2.1 (some sid) mid u c).1
      ).user_messages = 0 ∧
    (get_session_summary
        (apiGetOrCreate (delete_session st db sid).2.1 (some sid) mid u c).1
      ).ai_messages = 0 := by
  have hnone : lookupSession (delete_session st db sid).2.1 sid = none := by
    cases h : lookupSession st sid with
    | some b =>
        simp only [delete_session, h]
        exact lookupSession_filter_self st sid
    | none => simp [delete_session, h]
  refine ⟨?_, ?_, ?_, hnone, ?_, ?_⟩
  · cases h : lookupSession st sid <;> simp [delete_session, h]
  · cases h : lookupSession st sid <;> simp [delete_session, h]
  · cases h : lookupSession st sid with
    | some b => simp [delete_session, h]
    | none => simp [delete_session, h]
  · simp [apiGetOrCreate, hnone, get_session_summary, mkAWSChatbot,
      initMessages]
  · simp [apiGetOrCreate, hnone, get_session_summary, mkAWSChatbot,
      initMessages]

/-- C8: fetching history never fails: a raising query backend yields
`[]`, a store with no entries for the id yields `[]`, and a successful
query yields exactly the persisted items of that session in store
order. -/
theorem C8_history_total (db : DynamoDB) (sid : String) :
    get_conversation_history db sid false = [] ∧
    get_conversation_history db sid true =
      db.filter (fun it => it.sessionId = sid) ∧
    (∀ ok, db.filter (fun it => it.sessionId = sid) = [] →
      get_conversation_history db sid ok = []) := by
  refine ⟨rfl, rfl, ?_⟩
  intro ok h
  cases ok with
  | false => rfl
  | true => simpa [get_conversation_history, query_items] using h

/-- C8 witness: a concrete store with two sessions — history of "A"
is its persisted item, an unreachable backend yields `[]`, and an
unknown id "C" yields `[]`. -/
theorem C8_history_total_witness :
    get_conversation_history dbW "A" false = [] ∧
    get_conversation_history dbW "A" true =
      dbW.filter (fun it => it.sessionId = "A") ∧
    dbW.filter (fun it => it.sessionId = "C") = [] ∧
    get_conversation_history dbW "C" true = [] :=
  ⟨(C8_history_total dbW "A").1, (C8_history_total dbW "A").2.1,
    by decide, (C8_history_total dbW "C").2.2 true (by decide)⟩

/-- C10: the Lambda entry point answers 400 for a missing or empty
message without touching the registry or the store (no session is
constructed — the state, its allocation counter included, and the
store are returned unchanged, and the response does not depend on the
inference outcome); a body-parse failure and a constructor failure are
answered with 500 rather than raised; and every request gets a
200/400/500 response. -/
theorem C10_lambda_validation (st : RegistryState) (db : DynamoDB)
    (b : LambdaBody) (ctorOk : Bool) (env : StepEnv) (u e msg : String) :
    (b.message = none →
      lambda_handler st db (Except.ok b) ctorOk env u =
        (⟨400, LambdaRespBody.missingMessage⟩, st, db)) ∧
    (b.message = some "" →
      lambda_handler st db (Except.ok b) ctorOk env u =
        (⟨400, LambdaRespBody.missingMessage⟩, st, db)) ∧
    lambda_handler st db (Except.error e) ctorOk env u =
      (⟨500, LambdaRespBody.err e⟩, st, db) ∧
    (b.message = some msg → ¬ msg = "" → b.session_id = none →
      ctorOk = false →
      lambda_handler st db (Except.ok b) ctorOk env u =
        (⟨500, LambdaRespBody.err "could not construct AWSChatbot"⟩, st, db)) ∧
    ((lambda_handler st db (Except.ok b) ctorOk env u).1.statusCode = 200 ∨
     (lambda_handler st db (Except.ok b) ctorOk env u).1.statusCode = 400 ∨
     (lambda_handler st db (Except.ok b) ctorOk env u).1.statusCode = 500) := by
  refine ⟨?_, ?_, rfl, ?_, ?_⟩
  · intro h; simp [lambda_handler, h]
  · intro h; simp [lambda_handler, h]
  · intro h1 h2 h3 h4
    simp [lambda_handler, lambdaGetOrCreate, h1, h2, h3, h4]
  · cases hm : b.message with
    | none => simp [lambda_handler, hm]
    | some m =>
        by_cases hm0 : m = ""
        · simp [lambda_handler, hm, hm0]
        · cases hg : lambdaGetOrCreate st b.session_id b.model_id u ctorOk with
          | error e2 => simp [lambda_handler, hm, hm0, hg]
          | ok r =>
              obtain ⟨cb, st1⟩ := r
              simp [lambda_handler, hm, hm0, hg]

/-- C10 witness: concrete requests — absent message, empty message,
unparsable body, and failing constructor — each answered with the
expected status and untouched state. -/
theorem C10_lambda_validation_witness :
    bodyNoMsg.message = none ∧
    lambda_handler (RegistryState.mk [] 0) [] (Except.ok bodyNoMsg) true
        envOkW "u" =
      (⟨400, LambdaRespBody.missingMessage⟩, RegistryState.mk [] 0, []) ∧
    bodyEmptyMsg.message = some "" ∧
    lambda_handler (RegistryState.mk [] 0) [] (Except.ok bodyEmptyMsg) true
        envOkW "u" =
      (⟨400, LambdaRespBody.missingMessage⟩, RegistryState.mk [] 0, []) ∧
    lambda_handler (RegistryState.mk [] 0) [] (Except.error "bad json") true
        envOkW "u" =
      (⟨500, LambdaRespBody.err "bad json"⟩, RegistryState.mk [] 0, []) ∧
    lambda_handler (RegistryState.mk [] 0) [] (Except.ok bodyMsg) false
        envOkW "u" =
      (⟨500, LambdaRespBody.err "could not construct AWSChatbot"⟩,
        RegistryState.mk [] 0, []) :=
  ⟨rfl,
    (C10_lambda_validation (RegistryState.mk [] 0) [] bodyNoMsg true envOkW
      "u" "e" "m").1 rfl,
    rfl,
    (C10_lambda_validation (RegistryState.mk [] 0) [] bodyEmptyMsg true envOkW
      "u" "e" "m").2.1 rfl,
    (C10_lambda_validation (RegistryState.mk [] 0) [] bodyMsg true envOkW
      "u" "bad json" "m").2.2.1,
    (C10_lambda_validation (RegistryState.mk [] 0) [] bodyMsg false envOkW
      "u" "e" "hi").2.2.2.1 rfl (by decide) rfl rfl⟩
